import Mathlib

/-!
Verification of the OllamaUI chat route (`app/api/chat/route.ts`).

Strings from the JavaScript source are modelled as `List Char` (sequences of
Unicode characters); byte buffers as `List Nat` with every byte `< 256`.
Effectful collaborators (the remote image fetch, the S3 upload, the YOLO
detection call, the cookie jar, the clock and the UUID generator) are passed
in explicitly as oracle data, so every function of the model is total and
executable.
-/

namespace OllamaUI

/-- JavaScript `s.split(sep)` for a one-character separator: always returns a
non-empty list of (separator-free) segments; `"".split(sep) = [""]`. -/
def splitOnCh (sep : Char) : List Char → List (List Char)
  | [] => [[]]
  | c :: rest =>
    if c = sep then [] :: splitOnCh sep rest
    else
      match splitOnCh sep rest with
      | [] => [[c]]
      | l :: ls => (c :: l) :: ls

theorem splitOnCh_ne_nil (sep : Char) (s : List Char) : splitOnCh sep s ≠ [] := by
  cases s with
  | nil => simp [splitOnCh]
  | cons c rest =>
    simp only [splitOnCh]
    split
    · simp
    · split <;> simp

/-- The per-line contents built by the stream encoder (route.ts lines 132–136): every line
except the last is re-suffixed with its line break. -/
def chunkContents : List (List Char) → List (List Char)
  | [] => []
  | [l] => [l]
  | l :: ls => (l ++ ['\n']) :: chunkContents ls

theorem chunkContents_cons_head (c : Char) (l : List Char) (ls : List (List Char)) :
    (chunkContents ((c :: l) :: ls)).flatten = c :: (chunkContents (l :: ls)).flatten := by
  cases ls <;> simp [chunkContents]

/-- Re-joining the re-suffixed split segments reconstructs the message. -/
theorem flatten_chunkContents_splitOnCh (s : List Char) :
    (chunkContents (splitOnCh '\n' s)).flatten = s := by
  induction s with
  | nil => rfl
  | cons c rest ih =>
    obtain ⟨l, ls, hls⟩ := List.exists_cons_of_ne_nil (splitOnCh_ne_nil '\n' rest)
    by_cases hc : c = '\n'
    · subst hc
      rw [show splitOnCh '\n' ('\n' :: rest) = [] :: splitOnCh '\n' rest by simp [splitOnCh]]
      rw [hls] at ih ⊢
      simp [chunkContents, ih]
    · rw [show splitOnCh '\n' (c :: rest) = (c :: l) :: ls by
        simp [splitOnCh, hc, hls]]
      rw [hls] at ih
      rw [chunkContents_cons_head, ih]

/-- JavaScript `s.includes(pat)`: substring containment. -/
def jsIncludes (s pat : List Char) : Bool :=
  pat.isPrefixOf s ||
    (match s with
     | [] => false
     | _ :: rest => jsIncludes rest pat)

/-! ### JSON string serialization (`JSON.stringify` on a string value) -/

/-- Lower-case hexadecimal digit for `n < 16`. -/
def hexDigitCh (n : Nat) : Char :=
  if n < 10 then Char.ofNat (48 + n) else Char.ofNat (87 + n)

/-- The escape `JSON.stringify` applies to a single character: `"` and `\`
are backslash-escaped, the five named control characters get their short
escapes, other control characters become `\u00XX`, everything else is
emitted verbatim. -/
def jsonEscapeCh (c : Char) : List Char :=
  if c = '"' then ['\\', '"']
  else if c = '\\' then ['\\', '\\']
  else if c = '\x08' then ['\\', 'b']
  else if c = '\t' then ['\\', 't']
  else if c = '\n' then ['\\', 'n']
  else if c = '\x0c' then ['\\', 'f']
  else if c = '\r' then ['\\', 'r']
  else if c.toNat < 32 then
    ['\\', 'u', '0', '0', hexDigitCh (c.toNat / 16), hexDigitCh (c.toNat % 16)]
  else [c]

/-- Encoding of `JSON.stringify` on a string: quote, escape each character, quote. -/
def jsonEncodeStr (s : List Char) : List Char :=
  '"' :: (s.map jsonEscapeCh).flatten ++ ['"']

/-- Value of a hexadecimal digit character. -/
def hexVal (c : Char) : Option Nat :=
  if 48 ≤ c.toNat ∧ c.toNat ≤ 57 then some (c.toNat - 48)
  else if 97 ≤ c.toNat ∧ c.toNat ≤ 102 then some (c.toNat - 87)
  else if 65 ≤ c.toNat ∧ c.toNat ≤ 70 then some (c.toNat - 55)
  else none

/-- JSON string-body parser: consumes escape sequences until the closing
quote, which must end the input. -/
def jsonDecodeBody : List Char → Option (List Char)
  | [] => none
  | c :: rest =>
    if c = '"' then (if rest = [] then some [] else none)
    else if c = '\\' then
      match rest with
      | [] => none
      | e :: rs =>
        if e = '"' then (jsonDecodeBody rs).map (fun t => '"' :: t)
        else if e = '\\' then (jsonDecodeBody rs).map (fun t => '\\' :: t)
        else if e = '/' then (jsonDecodeBody rs).map (fun t => '/' :: t)
        else if e = 'b' then (jsonDecodeBody rs).map (fun t => '\x08' :: t)
        else if e = 't' then (jsonDecodeBody rs).map (fun t => '\t' :: t)
        else if e = 'n' then (jsonDecodeBody rs).map (fun t => '\n' :: t)
        else if e = 'f' then (jsonDecodeBody rs).map (fun t => '\x0c' :: t)
        else if e = 'r' then (jsonDecodeBody rs).map (fun t => '\r' :: t)
        else if e = 'u' then
          match rs with
          | a :: b :: c2 :: d :: rs2 =>
            match hexVal a, hexVal b, hexVal c2, hexVal d with
            | some va, some vb, some vc, some vd =>
              (jsonDecodeBody rs2).map
                (fun t => Char.ofNat (((va * 16 + vb) * 16 + vc) * 16 + vd) :: t)
            | _, _, _, _ => none
          | _ => none
        else none
    else if c.toNat < 32 then none
    else (jsonDecodeBody rest).map (fun t => c :: t)
termination_by structural s => s

/-- JSON string parser: requires an opening quote, then a well-formed body
terminated by the closing quote. -/
def jsonDecodeStr : List Char → Option (List Char)
  | '"' :: rest => jsonDecodeBody rest
  | _ => none

theorem hexVal_hexDigitCh : ∀ n, n < 16 → hexVal (hexDigitCh n) = some n := by decide

theorem jsonDecodeBody_escape (s : List Char) :
    jsonDecodeBody ((s.map jsonEscapeCh).flatten ++ ['"']) = some s := by
  induction s with
  | nil => decide
  | cons c rest ih =>
    simp only [List.map_cons, List.flatten_cons, List.append_assoc]
    by_cases h1 : c = '"'
    · subst h1
      rw [show jsonEscapeCh '"' = ['\\', '"'] from rfl]
      simp only [List.cons_append, List.nil_append]
      rw [jsonDecodeBody.eq_def]; simp [ih]
    · by_cases h2 : c = '\\'
      · subst h2
        rw [show jsonEscapeCh '\\' = ['\\', '\\'] from rfl]
        simp only [List.cons_append, List.nil_append]
        rw [jsonDecodeBody.eq_def]; simp [ih]
      · by_cases h3 : c = '\x08'
        · subst h3
          rw [show jsonEscapeCh '\x08' = ['\\', 'b'] from rfl]
          simp only [List.cons_append, List.nil_append]
          rw [jsonDecodeBody.eq_def]; simp [ih]
        · by_cases h4 : c = '\t'
          · subst h4
            rw [show jsonEscapeCh '\t' = ['\\', 't'] from rfl]
            simp only [List.cons_append, List.nil_append]
            rw [jsonDecodeBody.eq_def]; simp [ih]
          · by_cases h5 : c = '\n'
            · subst h5
              rw [show jsonEscapeCh '\n' = ['\\', 'n'] from rfl]
              simp only [List.cons_append, List.nil_append]
              rw [jsonDecodeBody.eq_def]; simp [ih]
            · by_cases h6 : c = '\x0c'
              · subst h6
                rw [show jsonEscapeCh '\x0c' = ['\\', 'f'] from rfl]
                simp only [List.cons_append, List.nil_append]
                rw [jsonDecodeBody.eq_def]; simp [ih]
              · by_cases h7 : c = '\r'
                · subst h7
                  rw [show jsonEscapeCh '\r' = ['\\', 'r'] from rfl]
                  simp only [List.cons_append, List.nil_append]
                  rw [jsonDecodeBody.eq_def]; simp [ih]
                · by_cases h8 : c.toNat < 32
                  · have hdiv : c.toNat / 16 < 16 := by omega
                    have hmod : c.toNat % 16 < 16 := by omega
                    simp only [jsonEscapeCh, if_neg h1, if_neg h2, if_neg h3, if_neg h4,
                      if_neg h5, if_neg h6, if_neg h7, if_pos h8, List.cons_append,
                      List.nil_append]
                    rw [jsonDecodeBody.eq_def]
                    simp only [reduceIte, hexVal_hexDigitCh _ hdiv,
                      hexVal_hexDigitCh _ hmod, show hexVal '0' = some 0 from rfl, ih,
                      Option.map_some']
                    have hvu : ((0 * 16 + 0) * 16 + c.toNat / 16) * 16 + c.toNat % 16
                        = c.toNat := by omega
                    rw [hvu, Char.ofNat_toNat]
                    simp
                  · simp only [jsonEscapeCh, if_neg h1, if_neg h2, if_neg h3, if_neg h4,
                      if_neg h5, if_neg h6, if_neg h7, if_neg h8, List.cons_append,
                      List.nil_append]
                    rw [jsonDecodeBody.eq_def]
                    simp only [if_neg h1, if_neg h2, if_neg h8, ih, Option.map_some']

/-- Decoding a `JSON.stringify`-encoded string recovers the original. -/
theorem jsonDecodeStr_jsonEncodeStr (s : List Char) :
    jsonDecodeStr (jsonEncodeStr s) = some s := by
  simp only [jsonEncodeStr, jsonDecodeStr]
  exact jsonDecodeBody_escape s

/-! ### Base64 (Node `Buffer.from(s, "base64")` / `buf.toString("base64")`) -/

/-- The standard base64 alphabet. -/
def b64alphabet : List Char :=
  "ABCDEFGHIJKLMNOPQRSTUVWXYZabcdefghijklmnopqrstuvwxyz0123456789+/".toList

/-- The base64 digit for a 6-bit value. -/
def b64char (n : Nat) : Char := b64alphabet.getD n 'A'

/-- The 6-bit value of a base64 digit; the URL-safe digits `-` and `_`
(RFC 4648 §5) are accepted as 62 and 63 like Node does, `none` for
characters outside both alphabets. -/
def b64val (c : Char) : Option Nat :=
  if c = '-' then some 62
  else if c = '_' then some 63
  else b64alphabet.findIdx? (fun x => x == c)

/-- Encoding of `buf.toString("base64")`: canonical padded base64 of a byte sequence. -/
def b64encodeBytes : List Nat → List Char
  | [] => []
  | [b1] => [b64char (b1 / 4), b64char (b1 % 4 * 16), '=', '=']
  | [b1, b2] => [b64char (b1 / 4), b64char (b1 % 4 * 16 + b2 / 16), b64char (b2 % 16 * 4), '=']
  | b1 :: b2 :: b3 :: rest =>
    b64char (b1 / 4) :: b64char (b1 % 4 * 16 + b2 / 16) ::
      b64char (b2 % 16 * 4 + b3 / 64) :: b64char (b3 % 64) :: b64encodeBytes rest

/-- The 6-bit values of a base64 text: characters outside the alphabet are
skipped, a padding character ends the input. -/
def b64vals : List Char → List Nat
  | [] => []
  | c :: rest =>
    if c = '=' then []
    else
      match b64val c with
      | some v => v :: b64vals rest
      | none => b64vals rest

/-- Packing 6-bit values into bytes: every full group of 8 bits yields a
byte, left-over bits are dropped. -/
def valsToBytes : List Nat → List Nat
  | v1 :: v2 :: v3 :: v4 :: rest =>
    (v1 * 4 + v2 / 16) :: (v2 % 16 * 16 + v3 / 4) :: (v3 % 4 * 64 + v4) :: valsToBytes rest
  | [v1, v2, v3] => [v1 * 4 + v2 / 16, v2 % 16 * 16 + v3 / 4]
  | [v1, v2] => [v1 * 4 + v2 / 16]
  | [_] => []
  | [] => []

/-- Decoding of `Buffer.from(s, "base64")`: decode a base64 text to bytes. -/
def b64decodeChars (s : List Char) : List Nat := valsToBytes (b64vals s)

theorem b64val_b64char : ∀ v, v < 64 → b64val (b64char v) = some v ∧ b64char v ≠ '=' := by
  decide

/-- Decoding a canonical base64 encoding recovers the original bytes. -/
theorem b64decode_b64encode :
    ∀ bs : List Nat, (∀ b ∈ bs, b < 256) → b64decodeChars (b64encodeBytes bs) = bs
  | [], _ => rfl
  | [b1], h => by
    have hb1 : b1 < 256 := h b1 (by simp)
    have h1 := b64val_b64char (b1 / 4) (by omega)
    have h2 := b64val_b64char (b1 % 4 * 16) (by omega)
    simp only [b64encodeBytes, b64decodeChars, b64vals, if_neg h1.2, if_neg h2.2, h1.1, h2.1]
    simp only [valsToBytes]
    congr 1
    omega
  | [b1, b2], h => by
    have hb1 : b1 < 256 := h b1 (by simp)
    have hb2 : b2 < 256 := h b2 (by simp)
    have h1 := b64val_b64char (b1 / 4) (by omega)
    have h2 := b64val_b64char (b1 % 4 * 16 + b2 / 16) (by omega)
    have h3 := b64val_b64char (b2 % 16 * 4) (by omega)
    simp only [b64encodeBytes, b64decodeChars, b64vals, if_neg h1.2, if_neg h2.2,
      if_neg h3.2, h1.1, h2.1, h3.1]
    simp only [valsToBytes]
    congr 2 <;> omega
  | b1 :: b2 :: b3 :: rest, h => by
    have hb1 : b1 < 256 := h b1 (by simp)
    have hb2 : b2 < 256 := h b2 (by simp)
    have hb3 : b3 < 256 := h b3 (by simp)
    have ih := b64decode_b64encode rest (fun b hb => h b (by simp [hb]))
    have h1 := b64val_b64char (b1 / 4) (by omega)
    have h2 := b64val_b64char (b1 % 4 * 16 + b2 / 16) (by omega)
    have h3 := b64val_b64char (b2 % 16 * 4 + b3 / 64) (by omega)
    have h4 := b64val_b64char (b3 % 64) (by omega)
    simp only [b64encodeBytes, b64decodeChars, b64vals, if_neg h1.2, if_neg h2.2,
      if_neg h3.2, if_neg h4.2, h1.1, h2.1, h3.1, h4.1] at ih ⊢
    simp only [valsToBytes]
    rw [ih]
    congr 3 <;> omega

/-! ### The data-URL parser (`parseDataUrl`, regex `^data:(.+?);base64,(.*)$`) -/

/-- The literal `;base64,` separator of a data URL. -/
def b64marker : List Char := ";base64,".toList

/-- Tests for the ECMAScript LineTerminator characters LF, CR, U+2028 and
U+2029: the `.` of the regex matches none of them. -/
def isLineTerm (c : Char) : Bool :=
  c = '\n' || c = '\r' || c = '\u2028' || c = '\u2029'

/-- Returns `true` when the text contains no LineTerminator; the `.` of the
regex does not match one and its `$` only matches at the very end. -/
def noLineTerm (s : List Char) : Bool := !(s.any isLineTerm)

/-- Backtracking search of the lazy group `(.+?)`: at each position, if the
media-type read so far is non-empty, the `;base64,` marker follows, and the
remainder is a valid `(.*)$` match, the match succeeds; otherwise one more
(non-LineTerminator) character is consumed into the media type. -/
def dataUrlScan : List Char → List Char → Option (List Char × List Char)
  | acc, rest =>
    if !acc.isEmpty && b64marker.isPrefixOf rest && noLineTerm (rest.drop b64marker.length) then
      some (acc.reverse, rest.drop b64marker.length)
    else
      match rest with
      | [] => none
      | c :: rs => if isLineTerm c then none else dataUrlScan (c :: acc) rs
termination_by structural _ rest => rest

/-- Parser `parseDataUrl` (route.ts lines 17–24): match
`^data:(.+?);base64,(.*)$` and return the media type and the base64 payload,
`none` when the reference does not have that shape. -/
def parseDataUrl (s : List Char) : Option (List Char × List Char) :=
  if ("data:".toList).isPrefixOf s then dataUrlScan [] (s.drop 5) else none

/-! ### Extension inference (`guessExtFromContentType`, route.ts lines 8–15) -/

/-- Helper `guessExtFromContentType(ct?: string | null)`: `none` models an absent /
null content-type, and a falsy (empty) string also yields the default. -/
def guessExtFromContentType : Option (List Char) → List Char
  | none => "jpg".toList
  | some ct =>
    if ct.isEmpty then "jpg".toList
    else if jsIncludes ct ("png".toList) then "png".toList
    else if jsIncludes ct ("webp".toList) then "webp".toList
    else if jsIncludes ct ("jpeg".toList) then "jpg".toList
    else if jsIncludes ct ("gif".toList) then "gif".toList
    else "jpg".toList

/-- The fixed ordered substring table of the spec: `png→png, webp→webp, jpeg→jpg,
gif→gif`. -/
def extTableSpec : List (List Char × List Char) :=
  [("png".toList, "png".toList), ("webp".toList, "webp".toList),
   ("jpeg".toList, "jpg".toList), ("gif".toList, "gif".toList)]

/-- Modelled from the words of the spec: return the first entry of the ordered
table whose key is a substring of the content-type, `jpg` when the
content-type is absent or no entry matches. -/
def extFirstMatchSpec : Option (List Char) → List Char
  | none => "jpg".toList
  | some ct =>
    match extTableSpec.find? (fun p => jsIncludes ct p.1) with
    | some p => p.2
    | none => "jpg".toList

/-! ### The request pipeline (`POST`, route.ts lines 54–126) -/

/-- The parsed detection-service response: the three fields the route
reads. -/
structure DetectionResult where
  detection_count : Nat
  labels : List (List Char)
  prediction_uid : List Char
deriving DecidableEq

/-- The failures the pipeline can raise; `unknownThrown` stands for a thrown
value that is not an `Error` (and so has no message). -/
inductive PipeErr where
  | malformedInlineImage
  | unsupportedImageSource
  | remoteFetchFailed (status : Nat)
  | storageWriteFailed (msg : Option (List Char))
  | detectionServiceError (status : Nat) (body : List Char)
  | unknownThrown
deriving DecidableEq

/-- The human-readable message carried by each failure (`error.message`);
`none` when the thrown value is not an `Error`. -/
def PipeErr.message : PipeErr → Option (List Char)
  | .malformedInlineImage => some ("Unsupported data URL format.".toList)
  | .unsupportedImageSource =>
    some ("Unsupported image source. Use a data URL or http(s) URL.".toList)
  | .remoteFetchFailed status =>
    some ("Failed to fetch image: ".toList ++ (Nat.repr status).toList)
  | .storageWriteFailed msg => msg
  | .detectionServiceError status body =>
    some ("Prediction API error: ".toList ++ (Nat.repr status).toList ++ ' ' :: body)
  | .unknownThrown => none

/-- Oracle data for the three effectful collaborators: the remote image
fetch, the S3 upload (a function of key, body and content-type) and the
detection call. -/
structure Oracle where
  fetchOk : Bool
  fetchStatus : Nat
  fetchBody : List Nat
  fetchContentType : Option (List Char)
  upload : List Char → List Nat → List Char → Except (Option (List Char)) Unit
  detectOk : Bool
  detectStatus : Nat
  detectText : List Char
  detectResult : DetectionResult

/-- Helper `getChatId` (route.ts lines 35–43): first truthy of `data.chatId`,
`data.chat_id`, the id of the first message, else `"anonymous"`. -/
def firstTruthy : List (Option (List Char)) → List Char → List Char
  | [], dflt => dflt
  | some v :: rest, dflt => if v.isEmpty then firstTruthy rest dflt else v
  | none :: rest, dflt => firstTruthy rest dflt

def getChatId (chatId chat_id firstMessageId : Option (List Char)) : List Char :=
  firstTruthy [chatId, chat_id, firstMessageId] ("anonymous".toList)

/-- The success template (route.ts lines 108–114). -/
def formatSuccess (r : DetectionResult) : List Char :=
  "🔍 **Object Detection Results**\n\n**Detection Count:** ".toList
  ++ (Nat.repr r.detection_count).toList
  ++ "\n**Detected Objects:** ".toList
  ++ (List.intersperse (", ".toList) r.labels).flatten
  ++ "\n**Prediction ID:** ".toList
  ++ r.prediction_uid
  ++ "\n\nI\x27ve analyzed your image and detected ".toList
  ++ (Nat.repr r.detection_count).toList
  ++ " object(s). The detected objects include: ".toList
  ++ (List.intersperse (", ".toList) r.labels).flatten
  ++ ".".toList

/-- The error template of the catch block (route.ts lines 116–125): embeds
`error.message` (or `"Unknown error"` for a non-`Error` value) and the
configured detection-service address. -/
def formatError (msg : Option (List Char)) (yolo : List Char) : List Char :=
  "❌ **Object Detection Error**\n\nSorry, I encountered an error while processing your image: ".toList
  ++ msg.getD ("Unknown error".toList)
  ++ "\n\nPlease make sure the object detection service is reachable at http://".toList
  ++ yolo
  ++ ".".toList

/-- The prompt returned when no image is attached. -/
def promptMessage : List Char := "Please provide an image for object detection.".toList

/-- The image source resolver (route.ts lines 72–82): a `data:` reference is
parsed and base64-decoded, an `http://` or `https://` reference is fetched,
anything else fails with the unsupported-source error. -/
def resolveImage (imageUrl : List Char) (o : Oracle) :
    Except PipeErr (List Nat × Option (List Char)) :=
  if ("data:".toList).isPrefixOf imageUrl then
    match parseDataUrl imageUrl with
    | none => Except.error PipeErr.malformedInlineImage
    | some (ct, b64data) => Except.ok (b64decodeChars b64data, some ct)
  else if ("http://".toList).isPrefixOf imageUrl
      || ("https://".toList).isPrefixOf imageUrl then
    if o.fetchOk then Except.ok (o.fetchBody, o.fetchContentType)
    else Except.error (PipeErr.remoteFetchFailed o.fetchStatus)
  else Except.error PipeErr.unsupportedImageSource

/-- The try-block of `POST` (route.ts lines 66–115): resolve the image
reference, upload it under `chatId/original/ts.ext`, call the detection
service, and build the success message; any failure is returned as a
`PipeErr`. -/
def pipelineOutcome (imageUrl chatId : List Char) (ts : Nat) (o : Oracle) :
    Except PipeErr (List Char) :=
  match resolveImage imageUrl o with
  | Except.error e => Except.error e
  | Except.ok (buffer, contentType) =>
    let ext := guessExtFromContentType contentType
    let key := chatId ++ "/original/".toList ++ (Nat.repr ts).toList ++ '.' :: ext
    let sentContentType :=
      match contentType with
      | some ct => if ct.isEmpty then "image/jpeg".toList else ct
      | none => "image/jpeg".toList
    match o.upload key buffer sentContentType with
    | Except.error m => Except.error (PipeErr.storageWriteFailed m)
    | Except.ok _ =>
      if o.detectOk then Except.ok (formatSuccess o.detectResult)
      else Except.error (PipeErr.detectionServiceError o.detectStatus o.detectText)

/-- The inbound request fields the route reads. -/
structure ChatRequest where
  images : List (List Char)
  chatId : Option (List Char)
  chat_id : Option (List Char)
  firstMessageId : Option (List Char)

/-- The ResponseMessage of a request (route.ts lines 63–126): the prompt when
no image is attached, otherwise the success message or the formatted error
report. -/
def runPipeline (req : ChatRequest) (o : Oracle) (ts : Nat) (yolo : List Char) : List Char :=
  match req.images with
  | [] => promptMessage
  | imageUrl :: _ =>
    match pipelineOutcome imageUrl (getChatId req.chatId req.chat_id req.firstMessageId) ts o with
    | Except.ok m => m
    | Except.error e => formatError e.message yolo

/-! ### Stream encoding (route.ts lines 129–157) -/

/-- The `usage` object of the `e:` and `d:` frames. -/
structure Usage where
  promptTokens : Nat
  completionTokens : Nat
deriving DecidableEq

/-- One frame of the data stream: a `0:` content frame carrying the
JSON-encoded payload text, the `e:` summary frame, or the `d:` completion
frame. -/
inductive Frame where
  | text (payload : List Char)
  | eFrame (finishReason : List Char) (usage : Usage) (isContinued : Bool)
  | dFrame (finishReason : List Char) (usage : Usage)
deriving DecidableEq

def stopReason : List Char := "stop".toList

/-- The stream produced for a message: one `0:` frame per line (every line
except the last re-suffixed with its line break, JSON-encoded), then the
`e:` frame, then the `d:` frame. -/
def encodeStream (message : List Char) : List Frame :=
  (chunkContents (splitOnCh '\n' message)).map (fun content => Frame.text (jsonEncodeStr content))
  ++ [Frame.eFrame stopReason ⟨10, message.length⟩ false,
      Frame.dFrame stopReason ⟨10, message.length⟩]

/-- The whole `POST` handler: compute the ResponseMessage, then stream it. -/
def handlePost (req : ChatRequest) (o : Oracle) (ts : Nat) (yolo : List Char) : List Frame :=
  encodeStream (runPipeline req o ts yolo)

/-- The payloads of the `0:` frames, in order. -/
def streamTextPayloads (fs : List Frame) : List (List Char) :=
  fs.filterMap (fun f => match f with | Frame.text p => some p | _ => none)

/-- The `usage` objects of the `e:` frames, in order. -/
def eUsages (fs : List Frame) : List Usage :=
  fs.filterMap (fun f => match f with | Frame.eFrame _ u _ => some u | _ => none)

/-- The `usage` objects of the `d:` frames, in order. -/
def dUsages (fs : List Frame) : List Usage :=
  fs.filterMap (fun f => match f with | Frame.dFrame _ u => some u | _ => none)

/-! ### Session/folder addressing (`resolveChatFolderId`, cookie variant) -/

/-- Addressor `resolveChatFolderId` (cookie-variant route, lines 41–55): reuse the
`chatFolderId` cookie when it is present (and truthy); otherwise mint
`YYYY-MM-DD-<short-random>` from the current ISO timestamp and the first
block of a fresh UUID, and return the `Set-Cookie` header persisting it for
90 days. -/
def resolveChatFolderId (cookie : Option (List Char)) (nowIso uuid : List Char) :
    List Char × Option (List Char) :=
  let existing := cookie.getD []
  if !existing.isEmpty then (existing, none)
  else
    let today := (splitOnCh 'T' nowIso).headD []
    let shortRand := (splitOnCh '-' uuid).headD []
    let folder := today ++ '-' :: shortRand
    let maxAge := 60 * 60 * 24 * 90
    (folder,
     some ("chatFolderId=".toList ++ folder ++ "; Path=/; Max-Age=".toList
       ++ (Nat.repr maxAge).toList ++ "; SameSite=Lax".toList))

/-! ### Stream-shape lemmas -/

theorem streamTextPayloads_encodeStream (msg : List Char) :
    streamTextPayloads (encodeStream msg)
      = (chunkContents (splitOnCh '\n' msg)).map jsonEncodeStr := by
  unfold encodeStream
  generalize chunkContents (splitOnCh '\n' msg) = l
  induction l with
  | nil => rfl
  | cons x xs ih => simpa [streamTextPayloads, List.filterMap_cons] using ih

theorem eUsages_encodeStream (msg : List Char) :
    eUsages (encodeStream msg) = [⟨10, msg.length⟩] := by
  unfold encodeStream
  generalize chunkContents (splitOnCh '\n' msg) = l
  induction l with
  | nil => rfl
  | cons x xs _ => simp [eUsages, List.filterMap_cons]

theorem dUsages_encodeStream (msg : List Char) :
    dUsages (encodeStream msg) = [⟨10, msg.length⟩] := by
  unfold encodeStream
  generalize chunkContents (splitOnCh '\n' msg) = l
  induction l with
  | nil => rfl
  | cons x xs _ => simp [dUsages, List.filterMap_cons]

theorem map_jsonDecode_jsonEncode (l : List (List Char)) :
    (l.map jsonEncodeStr).map jsonDecodeStr = l.map some := by
  induction l with
  | nil => rfl
  | cons x xs ih => simp [jsonDecodeStr_jsonEncodeStr, ih]

/-! ### The claims -/

/-- C1: for every ResponseMessage, the stream encoder emits one `0:` frame
per line of the message (each line except the last re-suffixed with its line
break, each payload JSON-encoded), such that JSON-decoding and concatenating
all `0:` payloads in order reconstructs the message exactly, followed by
exactly one `e:` frame and then exactly one `d:` frame, with no frames after
the `d:` frame. -/
theorem c1_stream_roundtrip (msg : List Char) :
    encodeStream msg
      = (chunkContents (splitOnCh '\n' msg)).map
          (fun content => Frame.text (jsonEncodeStr content))
        ++ [Frame.eFrame stopReason ⟨10, msg.length⟩ false,
            Frame.dFrame stopReason ⟨10, msg.length⟩]
  ∧ (streamTextPayloads (encodeStream msg)).map jsonDecodeStr
      = (chunkContents (splitOnCh '\n' msg)).map some
  ∧ (chunkContents (splitOnCh '\n' msg)).flatten = msg := by
  refine ⟨rfl, ?_, flatten_chunkContents_splitOnCh msg⟩
  rw [streamTextPayloads_encodeStream, map_jsonDecode_jsonEncode]

/-- C2: in both the `e:` and the `d:` frame of a response, the
`completionTokens` field of `usage` equals the length of the full
ResponseMessage. -/
theorem c2_completion_tokens (req : ChatRequest) (o : Oracle) (ts : Nat) (yolo : List Char) :
    eUsages (handlePost req o ts yolo) = [⟨10, (runPipeline req o ts yolo).length⟩]
  ∧ dUsages (handlePost req o ts yolo) = [⟨10, (runPipeline req o ts yolo).length⟩] :=
  ⟨eUsages_encodeStream _, dUsages_encodeStream _⟩

/-- C10: in every response, the `promptTokens` field of `usage` in both the
`e:` and the `d:` frame equals the constant 10, regardless of the request,
oracle outcome, timestamp or configured service address. -/
theorem c10_prompt_tokens (req : ChatRequest) (o : Oracle) (ts : Nat) (yolo : List Char) :
    (eUsages (handlePost req o ts yolo)).map Usage.promptTokens = [10]
  ∧ (dUsages (handlePost req o ts yolo)).map Usage.promptTokens = [10] := by
  constructor
  · rw [show eUsages (handlePost req o ts yolo)
        = [⟨10, (runPipeline req o ts yolo).length⟩] from eUsages_encodeStream _]
    rfl
  · rw [show dUsages (handlePost req o ts yolo)
        = [⟨10, (runPipeline req o ts yolo).length⟩] from dUsages_encodeStream _]
    rfl

/-- A concrete oracle whose collaborators all succeed; used by witnesses. -/
def oracle0 : Oracle :=
  { fetchOk := true, fetchStatus := 200, fetchBody := [], fetchContentType := none,
    upload := fun _ _ _ => Except.ok (), detectOk := true, detectStatus := 200,
    detectText := [], detectResult := ⟨0, [], []⟩ }

/-- C3: a reference starting with `data:` that does not match the
`media-type;base64,data` shape yields the MalformedInlineImage error report;
a reference starting with none of `data:`, `http://`, `https://` yields the
UnsupportedImageSource error report; in both cases the (total) pipeline
produces exactly the formatted error report. -/
theorem c3_reference_classification (req : ChatRequest) (o : Oracle) (ts : Nat)
    (yolo img : List Char) (rest : List (List Char)) (hi : req.images = img :: rest) :
    ((("data:".toList).isPrefixOf img = true) → parseDataUrl img = none →
      runPipeline req o ts yolo
        = formatError (PipeErr.message PipeErr.malformedInlineImage) yolo)
  ∧ ((("data:".toList).isPrefixOf img = false) →
     (("http://".toList).isPrefixOf img = false) →
     (("https://".toList).isPrefixOf img = false) →
      runPipeline req o ts yolo
        = formatError (PipeErr.message PipeErr.unsupportedImageSource) yolo) := by
  constructor
  · intro hd hp
    simp at hd
    simp [runPipeline, hi, pipelineOutcome, resolveImage, hd, hp]
  · intro h1 h2 h3
    simp at h1 h2 h3
    simp [runPipeline, hi, pipelineOutcome, resolveImage, h1, h2, h3]

theorem c3_reference_classification_witness :
    runPipeline ⟨["data:junk".toList], none, none, none⟩ oracle0 0 ("yolo:8080".toList)
      = formatError (PipeErr.message PipeErr.malformedInlineImage) ("yolo:8080".toList)
  ∧ runPipeline ⟨["ftp://x".toList], none, none, none⟩ oracle0 0 ("yolo:8080".toList)
      = formatError (PipeErr.message PipeErr.unsupportedImageSource) ("yolo:8080".toList) :=
  ⟨(c3_reference_classification ⟨["data:junk".toList], none, none, none⟩ oracle0 0
      ("yolo:8080".toList) ("data:junk".toList) [] rfl).1 (by decide) (by decide),
   (c3_reference_classification ⟨["ftp://x".toList], none, none, none⟩ oracle0 0
      ("yolo:8080".toList) ("ftp://x".toList) [] rfl).2 (by decide) (by decide) (by decide)⟩

/-- C4: extension inference returns the first match in the ordered substring
table png→png, webp→webp, jpeg→jpg, gif→gif, defaulting to `jpg` when the
content-type is absent or matches no entry; in particular `"image/png"` →
png and `"image/jpeg"` → jpg. -/
theorem c4_ext_inference (ct : Option (List Char)) :
    guessExtFromContentType ct = extFirstMatchSpec ct
  ∧ guessExtFromContentType (some ("image/png".toList)) = "png".toList
  ∧ guessExtFromContentType (some ("image/jpeg".toList)) = "jpg".toList
  ∧ guessExtFromContentType none = "jpg".toList := by
  refine ⟨?_, by decide, by decide, rfl⟩
  cases ct with
  | none => rfl
  | some s =>
    by_cases he : s.isEmpty
    · have hs : s = [] := by
        cases s with
        | nil => rfl
        | cons a t => simp [List.isEmpty] at he
      subst hs; decide
    · by_cases h1 : jsIncludes s ['p', 'n', 'g'] = true <;>
      by_cases h2 : jsIncludes s ['w', 'e', 'b', 'p'] = true <;>
      by_cases h3 : jsIncludes s ['j', 'p', 'e', 'g'] = true <;>
      by_cases h4 : jsIncludes s ['g', 'i', 'f'] = true <;>
      simp [guessExtFromContentType, extFirstMatchSpec, extTableSpec, List.find?,
        he, h1, h2, h3, h4]

/-- The tail literal of the error template, split before `http://`. -/
theorem errTail_split :
    "\n\nPlease make sure the object detection service is reachable at http://".toList
      = "\n\nPlease make sure the object detection service is reachable at ".toList
        ++ "http://".toList := by decide

/-- C5: every failure raised during image resolving, storage upload, or the
detection call is converted into exactly the fixed-format error report,
which embeds the message of the failure (`"Unknown error"` when the thrown value
carries none) and a hint containing `http://` followed by the configured
detection-service address; formatting is a total function, and exactly one
ResponseMessage is produced. -/
theorem c5_error_report (req : ChatRequest) (o : Oracle) (ts : Nat)
    (yolo img : List Char) (rest : List (List Char)) (e : PipeErr)
    (hi : req.images = img :: rest)
    (he : pipelineOutcome img (getChatId req.chatId req.chat_id req.firstMessageId) ts o
        = Except.error e) :
    runPipeline req o ts yolo = formatError e.message yolo
  ∧ e.message.getD ("Unknown error".toList) <:+: runPipeline req o ts yolo
  ∧ "http://".toList ++ yolo <:+: runPipeline req o ts yolo := by
  have hmain : runPipeline req o ts yolo = formatError e.message yolo := by
    simp [runPipeline, hi, he]
  refine ⟨hmain, ?_, ?_⟩
  · rw [hmain]
    exact ⟨"❌ **Object Detection Error**\n\nSorry, I encountered an error while processing your image: ".toList,
      "\n\nPlease make sure the object detection service is reachable at http://".toList
        ++ yolo ++ ".".toList,
      by simp [formatError, List.append_assoc]⟩
  · rw [hmain]
    refine ⟨"❌ **Object Detection Error**\n\nSorry, I encountered an error while processing your image: ".toList
        ++ e.message.getD ("Unknown error".toList)
        ++ "\n\nPlease make sure the object detection service is reachable at ".toList,
      ".".toList, ?_⟩
    simp [formatError, errTail_split, List.append_assoc]

theorem c5_error_report_witness :
    runPipeline ⟨["x".toList], none, none, none⟩ oracle0 0 ("yolo:8080".toList)
      = formatError (PipeErr.message PipeErr.unsupportedImageSource) ("yolo:8080".toList)
  ∧ (PipeErr.message PipeErr.unsupportedImageSource).getD ("Unknown error".toList)
      <:+: runPipeline ⟨["x".toList], none, none, none⟩ oracle0 0 ("yolo:8080".toList)
  ∧ "http://".toList ++ "yolo:8080".toList
      <:+: runPipeline ⟨["x".toList], none, none, none⟩ oracle0 0 ("yolo:8080".toList) :=
  c5_error_report ⟨["x".toList], none, none, none⟩ oracle0 0 ("yolo:8080".toList)
    ("x".toList) [] PipeErr.unsupportedImageSource rfl rfl

/-- C6: a fresh identifier combines the calendar date stamp (the part of the
ISO timestamp before `T`) with a short random token (the first block of the
UUID) and is persisted; once a token has been minted, every subsequent call
with that token present returns the same SessionId and mints no new token. -/
theorem c6_session_stability (nowIso uuid : List Char) :
    (resolveChatFolderId none nowIso uuid).1
      = (splitOnCh 'T' nowIso).headD [] ++ '-' :: (splitOnCh '-' uuid).headD []
  ∧ (resolveChatFolderId none nowIso uuid).2 ≠ none
  ∧ ∀ nowIso2 uuid2 : List Char,
      resolveChatFolderId (some (resolveChatFolderId none nowIso uuid).1) nowIso2 uuid2
        = ((resolveChatFolderId none nowIso uuid).1, none) := by
  refine ⟨rfl, by simp [resolveChatFolderId], ?_⟩
  intro nowIso2 uuid2
  have hne : ((splitOnCh 'T' nowIso).headD [] ++ '-' :: (splitOnCh '-' uuid).headD []).isEmpty
      = false := by
    cases h : (splitOnCh 'T' nowIso).headD [] <;> simp [List.isEmpty]
  simp [resolveChatFolderId, hne]

/-- C7: for a successful detection with detection_count 3, labels
cat/dog/car and prediction_uid abc123, the produced message contains the
literal substrings `Detection Count:** 3`, `cat, dog, car` and `abc123`. -/
theorem c7_success_template :
    jsIncludes (formatSuccess ⟨3, ["cat".toList, "dog".toList, "car".toList], "abc123".toList⟩)
        ("Detection Count:** 3".toList) = true
  ∧ jsIncludes (formatSuccess ⟨3, ["cat".toList, "dog".toList, "car".toList], "abc123".toList⟩)
        ("cat, dog, car".toList) = true
  ∧ jsIncludes (formatSuccess ⟨3, ["cat".toList, "dog".toList, "car".toList], "abc123".toList⟩)
        ("abc123".toList) = true := by
  refine ⟨by decide, by decide, by decide⟩

/-- C8 (counterexample): the claim fails as stated — the inline reference
`data:image/png;base64,A` matches the `media-type;base64,data` shape, but
base64-decoding its payload `A` (six bits, no full byte) and re-encoding
yields the empty string, not `A`. -/
theorem c8_counterexample :
    parseDataUrl ("data:image/png;base64,A".toList)
      = some ("image/png".toList, "A".toList)
  ∧ b64encodeBytes (b64decodeChars ("A".toList)) ≠ "A".toList := by
  refine ⟨by decide, by decide⟩

/-- C8 (amended): for every inline reference matching
`data:<type>;base64,<data>` whose `<data>` is the canonical base64 encoding
of a byte sequence, decoding `<data>` to bytes and re-encoding the bytes as
base64 reproduces `<data>` exactly. -/
theorem c8_base64_roundtrip (ref ct data : List Char) (bs : List Nat)
    (hbytes : ∀ b ∈ bs, b < 256)
    (hparse : parseDataUrl ref = some (ct, data))
    (hcanon : data = b64encodeBytes bs) :
    b64encodeBytes (b64decodeChars data) = data := by
  subst hcanon
  rw [b64decode_b64encode bs hbytes]

theorem c8_base64_roundtrip_witness :
    (∀ b ∈ ([104, 105] : List Nat), b < 256)
  ∧ parseDataUrl ("data:image/png;base64,aGk=".toList)
      = some ("image/png".toList, "aGk=".toList)
  ∧ "aGk=".toList = b64encodeBytes [104, 105]
  ∧ b64encodeBytes (b64decodeChars ("aGk=".toList)) = "aGk=".toList :=
  ⟨by decide, by decide, by decide,
   c8_base64_roundtrip ("data:image/png;base64,aGk=".toList) ("image/png".toList)
     ("aGk=".toList) [104, 105] (by decide) (by decide) (by decide)⟩

/-- C9: when the request carries more than one image, only the first entry
is resolved, uploaded and sent for detection: the response is identical for
any tail of later entries. -/
theorem c9_only_first_image (img : List Char) (rest1 rest2 : List (List Char))
    (cid cid2 fid : Option (List Char)) (o : Oracle) (ts : Nat) (yolo : List Char) :
    handlePost ⟨img :: rest1, cid, cid2, fid⟩ o ts yolo
      = handlePost ⟨img :: rest2, cid, cid2, fid⟩ o ts yolo := rfl

end OllamaUI
